import Mathlib

/-!
Verification development for the crewAI excerpt: `crewai/task.py`,
`crewai/agents/tools_handler.py` and `crewai/tools/agent_tools.py`,
shallowly embedded in Lean 4.  Python exceptions are modelled with
`Except`, Python truthiness (`or`, `if xs:`) is made explicit, and the
external execution backend (`Agent.execute_task`) is a function
parameter.  Thread scheduling is not representable in a shallow
embedding; an upstream task that has been joined is modelled as a task
whose `output` is present.
-/

/-- Substring test helper: does the candidate list start with the pattern?
Models the inner loop of Python string containment `pat in hay`. -/
def matchFront : List Char → List Char → Bool
  | [], _ => true
  | _ :: _, [] => false
  | p :: ps, c :: cs => p = c && matchFront ps cs

/-- Substring search over character lists, models Python `pat in hay`. -/
def findSub (pat : List Char) : List Char → Bool
  | [] => matchFront pat []
  | c :: cs => matchFront pat (c :: cs) || findSub pat cs

/-- `strHasSub hay pat` models the Python expression `pat in hay` on strings. -/
def strHasSub (hay pat : String) : Bool :=
  findSub pat.data hay.data

/-- Python runtime errors raised by the embedded code paths:
`KeyError` from a missing dict key, `AttributeError` from attribute access
on `None`. -/
inductive PyErr where
  | keyError
  | attributeError
deriving DecidableEq, Repr

/-- One `add` call observed on the Cache Store, with the exact arguments
`tool`, `input`, `output` that `ToolsHandler.on_tool_end` passes.  The tool
slot is an `Option` because `serialized.get("name")` may be absent. -/
structure CacheAdd where
  tool : Option String
  input : String
  output : String
deriving DecidableEq, Repr

/-- Modelled from the spec: the Cache Store (`CacheHandler`, whose source is
not under src) maps a (tool, input) key to the last written output,
last-write-wins, via `add(tool, input, output)`. -/
def cacheAdd (c : List ((Option String × String) × String))
    (tool : Option String) (input output : String) :
    List ((Option String × String) × String) :=
  ((tool, input), output) :: c.filter (fun e => e.1 ≠ (tool, input))

/-- State of a `ToolsHandler` (tools_handler.py): the last-used-tool record
(`none` models the initial empty dict `{}`, `some (tool, input)` a dict with
the two keys written by `on_tool_start`) and the attached Cache Store. -/
structure ToolsHandler where
  last_used_tool : Option (Option String × String)
  cache : List ((Option String × String) × String)
deriving DecidableEq, Repr

/-- A freshly constructed handler over a given Cache Store: no qualifying
`on_tool_start` has run, so the record is the initial empty dict. -/
def ToolsHandler.init (cache0 : List ((Option String × String) × String)) :
    ToolsHandler :=
  { last_used_tool := none, cache := cache0 }

/-- `ToolsHandler.on_tool_start` (tools_handler.py lines 28-47): record
`(name, input_str)` unless `name` is one of the reserved sentinel names
`"invalid_tool"` and `"_Exception"`.  `name` is `serialized.get("name")`,
hence an `Option`. -/
def ToolsHandler.on_tool_start (h : ToolsHandler) (name : Option String)
    (input_str : String) : ToolsHandler :=
  if name = some "invalid_tool" ∨ name = some "_Exception" then h
  else { h with last_used_tool := some (name, input_str) }

/-- `ToolsHandler.on_tool_end` (tools_handler.py lines 49-69): when `output`
carries none of the three failure-signal substrings, read the last-used-tool
record (KeyError on the initial empty dict) and, unless the recorded tool is
the cache-lookup tool, perform one Cache Store `add`.  The name of the
cache-lookup tool, `CacheTools().name`, lives outside src and is taken as
the parameter `cacheToolName`.  Returns the new state together with the list
of `add` calls performed. -/
def ToolsHandler.on_tool_end (cacheToolName : String) (h : ToolsHandler)
    (output : String) : Except PyErr (ToolsHandler × List CacheAdd) :=
  if !strHasSub output "is not a valid tool"
      && !strHasSub output "Invalid or incomplete response"
      && !strHasSub output "Invalid Format" then
    match h.last_used_tool with
    | none => .error .keyError
    | some (tool, input) =>
      if tool ≠ some cacheToolName then
        .ok ({ h with cache := cacheAdd h.cache tool input output },
             [⟨tool, input, output⟩])
      else .ok (h, [])
  else .ok (h, [])

namespace crewai

/-- A tool descriptor; tool entries are opaque values (`Any`) in the source,
identified here by name (the spec: "a named callable"). -/
structure Tool where
  name : String
deriving DecidableEq, Repr

/-- The execution-backend side of an agent (`crewai/agent.py` is outside this
excerpt): a `role` string and a default `tools` list, per the external
interface contract in the spec.  Its `execute_task` behaviour is passed
separately as a function. -/
structure Agent where
  role : String
  tools : List Tool
deriving DecidableEq, Repr

/-- `TaskOutput` (crewai/tasks/task_output.py, outside src): the result
record stored on a task after execution, per the spec's data model. -/
structure TaskOutput where
  description : String
  result : String
deriving DecidableEq, Repr

/-- `Task` (task.py): description, optional expected output, optional
agent, optional upstream context tasks, async flag, thread handle
(`thread : Bool` models whether `self.thread` holds a started thread
rather than `None`), optional output, and tools.  Recursive because
`context` holds other Tasks. -/
inductive Task where
  | mk (description : String) (expected_output : Option String)
       (agent : Option Agent) (context : Option (List Task))
       (async_execution : Bool) (thread : Bool)
       (output : Option TaskOutput) (tools : List Tool) : Task

/-- Field accessor for `Task.description`. -/
def Task.description : Task → String
  | .mk d _ _ _ _ _ _ _ => d

/-- Field accessor for `Task.expected_output`. -/
def Task.expected_output : Task → Option String
  | .mk _ e _ _ _ _ _ _ => e

/-- Field accessor for `Task.agent`. -/
def Task.agent : Task → Option Agent
  | .mk _ _ a _ _ _ _ _ => a

/-- Field accessor for `Task.context`. -/
def Task.context : Task → Option (List Task)
  | .mk _ _ _ c _ _ _ _ => c

/-- Field accessor for `Task.async_execution`. -/
def Task.async_execution : Task → Bool
  | .mk _ _ _ _ asy _ _ _ => asy

/-- Field accessor for `Task.thread`. -/
def Task.thread : Task → Bool
  | .mk _ _ _ _ _ th _ _ => th

/-- Field accessor for `Task.output`. -/
def Task.output : Task → Option TaskOutput
  | .mk _ _ _ _ _ _ o _ => o

/-- Field accessor for `Task.tools`. -/
def Task.tools : Task → List Tool
  | .mk _ _ _ _ _ _ _ ts => ts

/-- Functional update of the `output` field (`self.output = ...`). -/
def Task.withOutput : Task → Option TaskOutput → Task
  | .mk d e a c asy th _ ts, o => .mk d e a c asy th o ts

/-- Functional update of the `thread` field (`self.thread = Thread(...)`). -/
def Task.withThread : Task → Bool → Task
  | .mk d e a c asy _ o ts, th => .mk d e a c asy th o ts

/-- Functional update of the `tools` field (`self.tools.extend(...)`). -/
def Task.withTools : Task → List Tool → Task
  | .mk d e a c asy th o _, ts => .mk d e a c asy th o ts

/-- `Task.check_tools` (task.py lines 75-87), the `model_validator`:
`if not self.tools and self.agent and self.agent.tools:
self.tools.extend(self.agent.tools)`. -/
def Task.check_tools (t : Task) : Task :=
  match t.agent with
  | some a =>
    if t.tools.isEmpty && !a.tools.isEmpty then t.withTools (t.tools ++ a.tools)
    else t
  | none => t

/-- Modelled from the spec: the I18N provider (outside src) renders
`slice("expected_output")` as a templated line describing the expected
output format. -/
def expected_output_slice (eo : String) : String :=
  "Your final answer must be: " ++ eo

/-- `Task._prompt` (task.py): `[description]`, extended with the
expected-output line when `expected_output` is truthy (Python: `None` and
`""` are falsy), joined with newlines. -/
def Task._prompt (t : Task) : String :=
  match t.expected_output with
  | some eo =>
    if eo = "" then String.intercalate "\n" [t.description]
    else String.intercalate "\n" [t.description, expected_output_slice eo]
  | none => String.intercalate "\n" [t.description]

/-- The upstream-output reads of `Task.execute`'s context loop: for each
context task, `task.thread.join()` when it is asynchronous (AttributeError
when `thread` is still `None`, i.e. never started), then `task.output.result`
(AttributeError when `output` is `None`).  A joined async upstream task is
one whose thread exists and whose output has been set. -/
def contextResults : List Task → Except PyErr (List String)
  | [] => .ok []
  | u :: us =>
    if u.async_execution && !u.thread then .error .attributeError
    else
      match u.output with
      | none => .error .attributeError
      | some o => (contextResults us).map fun rs => o.result :: rs

/-- `agent = agent or self.agent` (task.py line 109): an Agent object is
always truthy, so the override wins exactly when it is supplied. -/
def Task.resolvedAgent (t : Task) (agentOv : Option Agent) : Option Agent :=
  agentOv <|> t.agent

/-- The `if self.context:` block of `Task.execute` (task.py lines 115-121):
when the instance declares a truthy (non-`None`, non-empty) context list the
caller-supplied context is overwritten by the newline-joined upstream
results; otherwise the caller's context passes through. -/
def Task.resolvedContext (t : Task) (contextOv : Option String) :
    Except PyErr (Option String) :=
  match t.context with
  | some ctx =>
    if ctx.isEmpty then .ok contextOv
    else (contextResults ctx).map fun rs => some (String.intercalate "\n" rs)
  | none => .ok contextOv

/-- `tools = tools or self.tools` (task.py line 123): a supplied empty list
is falsy in Python, so only a non-empty override wins. -/
def Task.resolvedTools (t : Task) (toolsOv : Option (List Tool)) : List Tool :=
  match toolsOv with
  | some ts => if ts.isEmpty then t.tools else ts
  | none => t.tools

/-- The external execution backend: the behaviour of
`agent.execute_task(task, context, tools)` for the resolved agent. -/
abbrev Backend := Agent → String → Option String → List Tool → String

/-- Errors raised by `Task.execute`: the missing-agent `Exception` (whose
message embeds the task description) and propagated Python runtime errors
from the context loop. -/
inductive ExecError where
  | noAgent (description : String)
  | pyError (e : PyErr)
deriving DecidableEq, Repr

/-- `Task._execute` (task.py): call the backend, store the result as the
task's `output` record, return the result.  The optional `callback` is an
opaque external effect and is not modelled. -/
def Task._execute (backend : Backend) (t : Task) (agent : Agent)
    (task_prompt : String) (context : Option String) (tools : List Tool) :
    Task × String :=
  let result := backend agent task_prompt context tools
  (t.withOutput (some { description := t.description, result := result }), result)

/-- `Task.execute` (task.py lines 89-137): resolve the agent (raise when
none), rebuild the context from upstream tasks when declared, resolve the
tools, then either start a thread (async; its eventual `_execute` effects
are concurrent and not modelled here) and return no result, or run
`_execute` inline and return the updated task and result. -/
def Task.execute (backend : Backend) (t : Task) (agentOv : Option Agent)
    (contextOv : Option String) (toolsOv : Option (List Tool)) :
    Except ExecError (Task × Option String) :=
  match t.resolvedAgent agentOv with
  | none => .error (.noAgent t.description)
  | some agent =>
    match t.resolvedContext contextOv with
    | .error e => .error (.pyError e)
    | .ok context =>
      let tools := t.resolvedTools toolsOv
      if t.async_execution then .ok (t.withThread true, none)
      else
        let r := Task._execute backend t agent t._prompt context tools
        .ok (r.1, some r.2)

/-- Sample upstream task T1: synchronous, output "A". -/
def sampleT1 : Task := .mk "t1" none none none false false (some ⟨"t1", "A"⟩) []

/-- Sample upstream task T2: asynchronous with a started thread, output "B". -/
def sampleT2 : Task := .mk "t2" none none none true true (some ⟨"t2", "B"⟩) []

/-- Sample agent with no tools, used as an execution backend identity. -/
def sampleAgentA : Agent := ⟨"Echo", []⟩

/-- Sample agent carrying one tool, for the tools-defaulting claims. -/
def sampleAgentTools : Agent := ⟨"Researcher", [⟨"search"⟩]⟩

/-- Sample dependent task declaring [T1, T2] as upstream context. -/
def sampleDependent : Task :=
  .mk "dep" none (some sampleAgentA) (some [sampleT1, sampleT2]) false false none []

/-- Sample task with declared context and an agent, used to exhibit the
discarded caller-supplied context override. -/
def sampleOverrideTask : Task :=
  .mk "c3" none (some sampleAgentA) (some [sampleT1]) false false none []

/-- Sample task with empty tools and an agent that has tools. -/
def sampleTaskNoTools : Task :=
  .mk "tn" none (some sampleAgentTools) none false false none []

/-- Sample task that already has a tool of its own. -/
def sampleTaskWithTools : Task :=
  .mk "tw" none (some sampleAgentTools) none false false none [⟨"calc"⟩]

/-- Sample task with no attached agent. -/
def sampleNoAgentTask : Task := .mk "orphan" none none none false false none []

end crewai

namespace crewai

/-- Modelled from the spec: the localized error string the I18N provider
(outside src) returns for `errors("agent_tool_missing_param")`. -/
def agent_tool_missing_param : String :=
  "Error executing tool. Missing exact 3 pipe separated values."

/-- Modelled from the spec: the localized unknown-coworker error,
`errors("agent_tool_unexsiting_coworker")` formatted with the comma-joined
list of valid coworker roles. -/
def agent_tool_unexsiting_coworker (coworkers : String) : String :=
  "Error executing tool. Co-worker not found, it must be one of the following options: "
    ++ coworkers

/-- Splitting a character list at every occurrence of the separator;
the recursive core of Python `command.split("|")`.  Always returns at
least one (possibly empty) part. -/
def splitParts (sep : Char) : List Char → List (List Char)
  | [] => [[]]
  | c :: cs =>
    match splitParts sep cs with
    | r :: rs => if c = sep then [] :: r :: rs else (c :: r) :: rs
    | [] => if c = sep then [[], []] else [[c]]

/-- Python `s.split(sep)` for a one-character separator, as used by
`AgentTools._execute` on "|".  Structurally recursive so that concrete
commands evaluate. -/
def pySplit (s : String) (sep : Char) : List String :=
  (splitParts sep s.data).map fun l => ⟨l⟩

/-- `AgentTools` (agent_tools.py): the delegation tools, holding the crew's
agents. -/
structure AgentTools where
  agents : List Agent

/-- `AgentTools._execute` (agent_tools.py lines 70-102): split the command
on "|" into exactly three parts (`ValueError` is caught and the localized
missing-param error returned otherwise, likewise when a part is empty),
resolve the coworker by exact role match (localized error listing the valid
roles when nobody matches), and forward (task, context) to the first match's
`execute_task`, whose external behaviour is the `execute_task` parameter. -/
def AgentTools._execute (self : AgentTools)
    (execute_task : Agent → String → String → String) (command : String) :
    String :=
  match pySplit command '|' with
  | [agentRole, task, context] =>
    if agentRole = "" ∨ task = "" ∨ context = "" then agent_tool_missing_param
    else
      match self.agents.filter fun ag => ag.role == agentRole with
      | [] =>
        agent_tool_unexsiting_coworker
          (String.intercalate ", " (self.agents.map Agent.role))
      | ag :: _ => execute_task ag task context
  | _ => agent_tool_missing_param

/-- `AgentTools.delegate_work`: delegates to `_execute`. -/
def AgentTools.delegate_work (self : AgentTools)
    (execute_task : Agent → String → String → String) (command : String) :
    String :=
  self._execute execute_task command

/-- `AgentTools.ask_question`: delegates to `_execute`. -/
def AgentTools.ask_question (self : AgentTools)
    (execute_task : Agent → String → String → String) (command : String) :
    String :=
  self._execute execute_task command

/-- A second sample agent sharing the role "Researcher", so that first-match
resolution is observable. -/
def sampleAgentB : Agent := ⟨"Researcher", []⟩

/-- Sample delegation tools over two agents with the same role. -/
def sampleCrew : AgentTools := ⟨[sampleAgentTools, sampleAgentB]⟩

end crewai

/-- Shared helper: a qualifying `on_tool_start` followed by a failure-free
`on_tool_end` on a non-cache-lookup tool records the pair and performs the
single Cache Store `add`. -/
lemma start_then_end_adds (h : ToolsHandler) (cacheToolName : String)
    (name input out : String)
    (hn1 : name ≠ "invalid_tool") (hn2 : name ≠ "_Exception")
    (hf1 : strHasSub out "is not a valid tool" = false)
    (hf2 : strHasSub out "Invalid or incomplete response" = false)
    (hf3 : strHasSub out "Invalid Format" = false)
    (hc : name ≠ cacheToolName) :
    (h.on_tool_start (some name) input).on_tool_end cacheToolName out =
      .ok ({ last_used_tool := some (some name, input),
             cache := cacheAdd h.cache (some name) input out },
           [⟨some name, input, out⟩]) := by
  have hstart : h.on_tool_start (some name) input =
      { h with last_used_tool := some (some name, input) } := by
    unfold ToolsHandler.on_tool_start
    rw [if_neg]
    push_neg
    exact ⟨by simpa using hn1, by simpa using hn2⟩
  rw [hstart]
  unfold ToolsHandler.on_tool_end
  simp [hf1, hf2, hf3, hc]

/-- C2: a qualifying `on_tool_start` followed by a failure-free
`on_tool_end` whose recorded tool differs from the cache-lookup tool
performs exactly one Cache Store `add` with that (tool, input, output)
triple, and the resulting cache maps (tool, input) to the output. -/
theorem tools_handler_caches_success (h : ToolsHandler) (cacheToolName : String)
    (name input out : String)
    (hn1 : name ≠ "invalid_tool") (hn2 : name ≠ "_Exception")
    (hf1 : strHasSub out "is not a valid tool" = false)
    (hf2 : strHasSub out "Invalid or incomplete response" = false)
    (hf3 : strHasSub out "Invalid Format" = false)
    (hc : name ≠ cacheToolName) :
    (h.on_tool_start (some name) input).on_tool_end cacheToolName out =
      .ok ({ last_used_tool := some (some name, input),
             cache := cacheAdd h.cache (some name) input out },
           [⟨some name, input, out⟩]) :=
  start_then_end_adds h cacheToolName name input out hn1 hn2 hf1 hf2 hf3 hc

/-- Witness for C2 at the spec instance: tool "Calculator", input "6*7",
output "42" on a fresh handler yields exactly the single cache entry
("Calculator", "6*7") -> "42". -/
theorem tools_handler_caches_success_witness :
    ((ToolsHandler.init []).on_tool_start (some "Calculator") "6*7").on_tool_end
        "Cache Hit" "42" =
      .ok ({ last_used_tool := some (some "Calculator", "6*7"),
             cache := [((some "Calculator", "6*7"), "42")] },
           [⟨some "Calculator", "6*7", "42"⟩]) := by
  have := tools_handler_caches_success (ToolsHandler.init []) "Cache Hit"
    "Calculator" "6*7" "42" (by decide) (by decide) (by decide) (by decide)
    (by decide) (by decide)
  simpa [ToolsHandler.init, cacheAdd] using this

/-- C5: `on_tool_end` with an output containing any of the three
failure-signal substrings performs no Cache Store `add` and leaves the
handler state (cache included) unchanged, whatever the last-used-tool
record holds. -/
theorem on_tool_end_failure_no_cache (cacheToolName : String)
    (h : ToolsHandler) (out : String)
    (hf : strHasSub out "is not a valid tool" = true ∨
          strHasSub out "Invalid or incomplete response" = true ∨
          strHasSub out "Invalid Format" = true) :
    h.on_tool_end cacheToolName out = .ok (h, []) := by
  unfold ToolsHandler.on_tool_end
  rcases hf with hf | hf | hf <;> simp [hf]

/-- Witness for C5: output "Invalid Format: retry" writes nothing even
though a qualifying record is present. -/
theorem on_tool_end_failure_no_cache_witness :
    ToolsHandler.on_tool_end "Cache Hit"
        { last_used_tool := some (some "Calculator", "6*7"), cache := [] }
        "Invalid Format: retry" =
      .ok ({ last_used_tool := some (some "Calculator", "6*7"), cache := [] },
           []) :=
  on_tool_end_failure_no_cache "Cache Hit"
    { last_used_tool := some (some "Calculator", "6*7"), cache := [] }
    "Invalid Format: retry" (Or.inr (Or.inr (by decide)))

/-- C9: on a freshly constructed handler whose last-used-tool record is
still the initial empty dict, a failure-free `on_tool_end` raises `KeyError`
(missing "tool" key) instead of writing to the cache or returning. -/
theorem on_tool_end_fresh_key_error (cacheToolName : String)
    (cache0 : List ((Option String × String) × String)) (out : String)
    (hf1 : strHasSub out "is not a valid tool" = false)
    (hf2 : strHasSub out "Invalid or incomplete response" = false)
    (hf3 : strHasSub out "Invalid Format" = false) :
    (ToolsHandler.init cache0).on_tool_end cacheToolName out =
      .error .keyError := by
  unfold ToolsHandler.on_tool_end ToolsHandler.init
  simp [hf1, hf2, hf3]

/-- Witness for C9: a fresh handler and the benign output "42". -/
theorem on_tool_end_fresh_key_error_witness :
    (ToolsHandler.init []).on_tool_end "Cache Hit" "42" = .error .keyError :=
  on_tool_end_fresh_key_error "Cache Hit" [] "42"
    (by decide) (by decide) (by decide)

/-- C10 counterexample: the claim asserts that after a qualifying start
recording (T, I) and a reserved-name start, every non-failure `on_tool_end`
writes the stale pair.  When T is the cache-lookup tool's own name the end
handler writes nothing: here T = "Cache Hit" = the cache tool name, the run
performs zero `add` calls instead of the claimed one. -/
theorem stale_pair_counterexample :
    (((ToolsHandler.init []).on_tool_start (some "Cache Hit") "in").on_tool_start
        (some "invalid_tool") "x").on_tool_end "Cache Hit" "out" ≠
      .ok (({ last_used_tool := some (some "Cache Hit", "in"),
              cache := cacheAdd [] (some "Cache Hit") "in" "out" } : ToolsHandler),
           [⟨some "Cache Hit", "in", "out"⟩]) := by
  have hrun : (((ToolsHandler.init []).on_tool_start (some "Cache Hit") "in").on_tool_start
      (some "invalid_tool") "x").on_tool_end "Cache Hit" "out" =
      .ok (({ last_used_tool := some (some "Cache Hit", "in"), cache := [] } :
        ToolsHandler), []) := by rfl
  rw [hrun]
  simp

/-- C10 amended: `on_tool_start` with a reserved name ("invalid_tool" or
"_Exception") leaves the handler state entirely unchanged; hence if a
previous qualifying start recorded (T, I) and T moreover differs from the
cache-lookup tool's name, a subsequent non-failure `on_tool_end O` writes
the stale pair (T, I) with the new output O into the Cache Store. -/
theorem reserved_start_stale_write_amended (h : ToolsHandler)
    (cacheToolName T I R X O : String)
    (hres : R = "invalid_tool" ∨ R = "_Exception")
    (hT1 : T ≠ "invalid_tool") (hT2 : T ≠ "_Exception")
    (hTc : T ≠ cacheToolName)
    (hf1 : strHasSub O "is not a valid tool" = false)
    (hf2 : strHasSub O "Invalid or incomplete response" = false)
    (hf3 : strHasSub O "Invalid Format" = false) :
    (h.on_tool_start (some T) I).on_tool_start (some R) X =
        h.on_tool_start (some T) I ∧
    ((h.on_tool_start (some T) I).on_tool_start (some R) X).on_tool_end
        cacheToolName O =
      .ok ({ last_used_tool := some (some T, I),
             cache := cacheAdd h.cache (some T) I O },
           [⟨some T, I, O⟩]) := by
  have hskip : (h.on_tool_start (some T) I).on_tool_start (some R) X =
      h.on_tool_start (some T) I := by
    unfold ToolsHandler.on_tool_start
    rcases hres with hres | hres <;> simp [hres]
  refine ⟨hskip, ?_⟩
  rw [hskip]
  exact start_then_end_adds h cacheToolName T I O hT1 hT2 hf1 hf2 hf3 hTc

/-- Witness for C10's amended claim: record ("Calculator", "6*7"), then a
reserved "invalid_tool" start, then `on_tool_end "42"` writes the stale pair
with the new output. -/
theorem reserved_start_stale_write_amended_witness :
    (((ToolsHandler.init []).on_tool_start (some "Calculator") "6*7").on_tool_start
        (some "invalid_tool") "x").on_tool_end "Cache Hit" "42" =
      .ok ({ last_used_tool := some (some "Calculator", "6*7"),
             cache := cacheAdd [] (some "Calculator") "6*7" "42" },
           [⟨some "Calculator", "6*7", "42"⟩]) :=
  (reserved_start_stale_write_amended (ToolsHandler.init []) "Cache Hit"
    "Calculator" "6*7" "invalid_tool" "x" "42" (Or.inl rfl) (by decide)
    (by decide) (by decide) (by decide) (by decide) (by decide)).2

namespace crewai

/-- The `tools` field after a functional `tools` update. -/
lemma tools_withTools (t : Task) (l : List Tool) : (t.withTools l).tools = l := by
  cases t; rfl

/-- C1: when a task declares a non-empty upstream context list whose tasks
have all completed (threads started and outputs present, as after the joins),
`execute` discards any caller-supplied context override and passes down the
upstream results joined with newlines, in declared order. -/
theorem task_context_assembly (t : Task) (ctx : List Task) (rs : List String)
    (hc : t.context = some ctx) (hne : ctx ≠ [])
    (hrs : contextResults ctx = .ok rs) (co : Option String) :
    t.resolvedContext co = .ok (some (String.intercalate "\n" rs)) := by
  unfold Task.resolvedContext
  rw [hc]
  cases ctx with
  | nil => exact absurd rfl hne
  | cons u us => simp [hrs, Except.map]

/-- Witness for C1 at the spec instance: T1 sync with output "A", T2 async
(thread started) with output "B"; the assembled context is "A\nB" even though
the caller supplied "OVERRIDE". -/
theorem task_context_assembly_witness :
    sampleDependent.resolvedContext (some "OVERRIDE") = .ok (some "A\nB") := by
  have h := task_context_assembly sampleDependent [sampleT1, sampleT2]
    ["A", "B"] rfl (by simp) rfl (some "OVERRIDE")
  exact h

/-- C3 counterexample: with upstream context declared, a caller-supplied
context override is NOT the effective context: the dependent task of
`sampleOverrideTask` receives "A" (the upstream output), not "OVERRIDE",
refuting override-first resolution for the context parameter. -/
theorem execute_resolution_order_counterexample :
    (sampleOverrideTask.execute (fun _ _ c _ => c.getD "NONE") none
        (some "OVERRIDE") none).map Prod.snd ≠ .ok (some "OVERRIDE") := by
  have hrun : (sampleOverrideTask.execute (fun _ _ c _ => c.getD "NONE") none
      (some "OVERRIDE") none).map Prod.snd = .ok (some "A") := rfl
  rw [hrun]
  simp

/-- C3 amended: the agent is resolved override-first; the tools override
wins only when non-empty (a supplied empty list falls back to the instance
tools, which `check_tools` defaulted from the agent at validation); the
context override is used only when the instance declares no (or an empty)
upstream context list, and otherwise is discarded in favour of the rebuilt
upstream results. -/
theorem execute_resolution_order_amended (t : Task) (a : Agent)
    (ts : List Tool) (co : Option String) :
    (t.resolvedAgent (some a) = some a) ∧
    (t.resolvedAgent none = t.agent) ∧
    (ts ≠ [] → t.resolvedTools (some ts) = ts) ∧
    (t.resolvedTools (some []) = t.tools) ∧
    (t.resolvedTools none = t.tools) ∧
    (t.context = none → t.resolvedContext co = .ok co) ∧
    (∀ ctx, t.context = some ctx → ctx ≠ [] →
      t.resolvedContext co =
        (contextResults ctx).map fun rs => some (String.intercalate "\n" rs)) ∧
    (t.tools = [] → t.agent = some a → a.tools ≠ [] →
      t.check_tools.tools = a.tools) := by
  refine ⟨rfl, rfl, ?_, rfl, rfl, ?_, ?_, ?_⟩
  · intro hts
    cases ts with
    | nil => exact absurd rfl hts
    | cons b bs => rfl
  · intro h
    unfold Task.resolvedContext
    rw [h]
  · intro ctx hc hne
    unfold Task.resolvedContext
    rw [hc]
    cases ctx with
    | nil => exact absurd rfl hne
    | cons u us => rfl
  · intro h1 h2 h3
    unfold Task.check_tools
    rw [h2]
    cases hat : a.tools with
    | nil => exact absurd hat h3
    | cons b bs => simp [h1, hat, tools_withTools]

/-- Witness for C3's amended claim at concrete inputs: agent override wins,
empty tools override falls back, declared context beats the override, and
validation defaulted the tools from the agent. -/
theorem execute_resolution_order_amended_witness :
    (sampleOverrideTask.resolvedAgent (some sampleAgentTools) =
      some sampleAgentTools) ∧
    (sampleOverrideTask.resolvedTools (some []) = sampleOverrideTask.tools) ∧
    (sampleOverrideTask.resolvedContext (some "OVERRIDE") =
      (contextResults [sampleT1]).map
        fun rs => some (String.intercalate "\n" rs)) ∧
    (sampleTaskNoTools.check_tools.tools = sampleAgentTools.tools) :=
  ⟨(execute_resolution_order_amended sampleOverrideTask sampleAgentTools []
      (some "OVERRIDE")).1,
   (execute_resolution_order_amended sampleOverrideTask sampleAgentTools []
      (some "OVERRIDE")).2.2.2.1,
   (execute_resolution_order_amended sampleOverrideTask sampleAgentTools []
      (some "OVERRIDE")).2.2.2.2.2.2.1 [sampleT1] rfl (by simp),
   (execute_resolution_order_amended sampleTaskNoTools sampleAgentTools []
      none).2.2.2.2.2.2.2 rfl rfl (by decide)⟩

/-- C4: with no agent attached and none supplied, `execute` fails with the
missing-agent configuration error carrying the task description, for every
backend (so no backend call happens) and before any output is produced;
whenever an agent is resolvable this error is never raised. -/
theorem execute_missing_agent (t : Task) (backend : Backend)
    (co : Option String) (tOv : Option (List Tool)) :
    (t.agent = none →
      t.execute backend none co tOv = .error (.noAgent t.description)) ∧
    (∀ aOv : Option Agent, (t.resolvedAgent aOv).isSome = true →
      ∀ d, t.execute backend aOv co tOv ≠ .error (.noAgent d)) := by
  constructor
  · intro h
    unfold Task.execute
    have hra : t.resolvedAgent none = none := by
      unfold Task.resolvedAgent
      rw [h]
      rfl
    rw [hra]
  · intro aOv hsome d
    cases hag : t.resolvedAgent aOv with
    | none => rw [hag] at hsome; exact absurd hsome (by simp)
    | some ag =>
      unfold Task.execute
      rw [hag]
      cases hctx : t.resolvedContext co with
      | error e => simp
      | ok c =>
        by_cases hasy : t.async_execution = true
        · simp [hasy]
        · simp [hasy]

/-- Witness for C4: the orphan task errors with its own description; a task
with an attached agent never raises the missing-agent error. -/
theorem execute_missing_agent_witness :
    (sampleNoAgentTask.execute (fun _ _ _ _ => "r") none none none =
      .error (.noAgent "orphan")) ∧
    (sampleTaskNoTools.execute (fun _ _ _ _ => "r") none none none ≠
      .error (.noAgent "x")) :=
  ⟨(execute_missing_agent sampleNoAgentTask (fun _ _ _ _ => "r") none none).1
      rfl,
   (execute_missing_agent sampleTaskNoTools (fun _ _ _ _ => "r") none none).2
      none rfl "x"⟩

/-- C8: the `check_tools` validator copies the agent's tools exactly when
the task's tools are empty and an agent with non-empty tools is attached;
in every other case the task is left unchanged. -/
theorem check_tools_default (t : Task) (a : Agent) :
    (t.tools = [] → t.agent = some a → a.tools ≠ [] →
      t.check_tools.tools = a.tools) ∧
    (t.tools ≠ [] → t.check_tools = t) ∧
    (t.agent = none → t.check_tools = t) ∧
    (t.agent = some a → a.tools = [] → t.check_tools = t) := by
  refine ⟨?_, ?_, ?_, ?_⟩
  · intro h1 h2 h3
    unfold Task.check_tools
    rw [h2]
    cases hat : a.tools with
    | nil => exact absurd hat h3
    | cons b bs => simp [h1, hat, tools_withTools]
  · intro h
    unfold Task.check_tools
    cases hag : t.agent with
    | none => rfl
    | some a0 =>
      cases hts : t.tools with
      | nil => exact absurd hts h
      | cons b bs => simp [hts]
  · intro h
    unfold Task.check_tools
    rw [h]
  · intro h2 h3
    unfold Task.check_tools
    rw [h2]
    simp [h3]

/-- Witness for C8: the sample task with empty tools inherits the agent's
tools; a task with its own tool and a task without an agent are unchanged. -/
theorem check_tools_default_witness :
    (sampleTaskNoTools.check_tools.tools = sampleAgentTools.tools) ∧
    (sampleTaskWithTools.check_tools = sampleTaskWithTools) ∧
    (sampleNoAgentTask.check_tools = sampleNoAgentTask) :=
  ⟨(check_tools_default sampleTaskNoTools sampleAgentTools).1 rfl rfl
      (by decide),
   (check_tools_default sampleTaskWithTools sampleAgentTools).2.1 (by decide),
   (check_tools_default sampleNoAgentTask sampleAgentTools).2.2.1 rfl⟩

end crewai

namespace crewai

/-- C6: `delegate_work` and `ask_question` return the localized
missing-parameter error (a result string, not an exception — both functions
are total) whenever the command does not split into exactly three parts or
has an empty part, for every backend. -/
theorem agent_tools_malformed_command (self : AgentTools)
    (execute_task : Agent → String → String → String) (command : String)
    (hbad : (pySplit command '|').length ≠ 3 ∨ "" ∈ pySplit command '|') :
    self.delegate_work execute_task command = agent_tool_missing_param ∧
    self.ask_question execute_task command = agent_tool_missing_param := by
  have key : self._execute execute_task command = agent_tool_missing_param := by
    unfold AgentTools._execute
    generalize hl : pySplit command '|' = l at hbad ⊢
    rcases l with _ | ⟨p1, _ | ⟨p2, _ | ⟨p3, _ | ⟨p4, rest⟩⟩⟩⟩
    · rfl
    · rfl
    · rfl
    · rcases hbad with hlen | hmem
      · exact absurd (rfl : ([p1, p2, p3] : List String).length = 3) hlen
      · simp only [List.mem_cons, List.not_mem_nil, or_false] at hmem
        rcases hmem with h | h | h <;> simp [← h]
    · rfl
  exact ⟨key, key⟩

/-- Witness for C6: the two-part command "a|b" yields the error from both
entry points. -/
theorem agent_tools_malformed_command_witness :
    sampleCrew.delegate_work (fun ag t c => ag.role ++ t ++ c) "a|b" =
      agent_tool_missing_param ∧
    sampleCrew.ask_question (fun ag t c => ag.role ++ t ++ c) "a|b" =
      agent_tool_missing_param :=
  agent_tools_malformed_command sampleCrew (fun ag t c => ag.role ++ t ++ c)
    "a|b" (Or.inl (by decide))

/-- C7: on a well-formed "role|task|context" command, a zero-match role
yields the localized unknown-coworker error listing the valid roles (for
every backend, which is therefore not invoked), and otherwise the first
matching agent's `execute_task` is applied to exactly (task, context) and
its result returned unchanged — from both entry points. -/
theorem agent_tools_dispatch (self : AgentTools)
    (execute_task : Agent → String → String → String)
    (command r task ctx : String)
    (hs : pySplit command '|' = [r, task, ctx])
    (hr : r ≠ "") (ht : task ≠ "") (hc : ctx ≠ "") :
    ((self.agents.filter fun ag => ag.role == r) = [] →
      self.delegate_work execute_task command =
        agent_tool_unexsiting_coworker
          (String.intercalate ", " (self.agents.map Agent.role)) ∧
      self.ask_question execute_task command =
        agent_tool_unexsiting_coworker
          (String.intercalate ", " (self.agents.map Agent.role))) ∧
    (∀ ag rest, (self.agents.filter fun a2 => a2.role == r) = ag :: rest →
      self.delegate_work execute_task command = execute_task ag task ctx ∧
      self.ask_question execute_task command = execute_task ag task ctx) := by
  have base :
      self._execute execute_task command =
        match self.agents.filter fun ag => ag.role == r with
        | [] =>
          agent_tool_unexsiting_coworker
            (String.intercalate ", " (self.agents.map Agent.role))
        | ag :: _ => execute_task ag task ctx := by
    unfold AgentTools._execute
    simp only [hs]
    rw [if_neg]
    push_neg
    exact ⟨hr, ht, hc⟩
  constructor
  · intro hf
    have : self._execute execute_task command =
        agent_tool_unexsiting_coworker
          (String.intercalate ", " (self.agents.map Agent.role)) := by
      rw [base, hf]
    exact ⟨this, this⟩
  · intro ag rest hf
    have : self._execute execute_task command = execute_task ag task ctx := by
      rw [base, hf]
    exact ⟨this, this⟩

/-- Witness for C7: "Researcher|find facts|background info" reaches the
first of the two Researcher agents with exactly that task and context, and
"Unknown|x|y" yields the unknown-coworker error listing the roles. -/
theorem agent_tools_dispatch_witness :
    sampleCrew.delegate_work (fun ag t c => ag.role ++ ":" ++ t ++ ":" ++ c)
        "Researcher|find facts|background info" =
      "Researcher:find facts:background info" ∧
    sampleCrew.ask_question (fun ag t c => ag.role ++ ":" ++ t ++ ":" ++ c)
        "Unknown|x|y" =
      agent_tool_unexsiting_coworker "Researcher, Researcher" := by
  constructor
  · exact ((agent_tools_dispatch sampleCrew
      (fun ag t c => ag.role ++ ":" ++ t ++ ":" ++ c)
      "Researcher|find facts|background info" "Researcher" "find facts"
      "background info" (by decide) (by decide) (by decide) (by decide)).2
      sampleAgentTools [sampleAgentB] rfl).1
  · exact ((agent_tools_dispatch sampleCrew
      (fun ag t c => ag.role ++ ":" ++ t ++ ":" ++ c)
      "Unknown|x|y" "Unknown" "x" "y" (by decide) (by decide) (by decide)
      (by decide)).1 rfl).2

end crewai
